import Mathlib

/-!
# Object operations of cf-object-storage (`src/object/object.go`)

A shallow embedding of the object façade: every Go function of the file becomes a Lean
function that threads an explicit `State` (the remote store, the pending upload, the
scripted transport faults and the trace of effects performed so far) and reads the
behaviour of the outside world (local files, the HTTP transport, library functions) from
an `Env`.  An index expression on the argument list that Go would abort on (index out of
range) makes the embedded function return `none`.
-/

namespace ObjectStorage

/-! ## Errors -/

/-- Error values.  `cause` is an error produced outside the package (its text is what Go's
`Error()` returns); every other constructor is one `fmt.Errorf` format of `object.go`. -/
inductive Err where
  | cause (text : String)
  | getObjectFailed (object : String) (e : Err)
  | fileContentsFailed (path : String) (e : Err)
  | createFailed (e : Err)
  | writeFailed (e : Err)
  | closeWriterFailed (e : Err)
  | copyFailed (e : Err)
  | openCreateFailed (e : Err)
  | renameFailed (e : Err)
  | deleteFailed (object : String) (e : Err)
  | createRequestFailed (e : Err)
  | makeRequestFailed (e : Err)
  | statusFailed (status : String)
  | readBodyFailed
  | openSourceFailed (e : Err)
  | statFailed (e : Err)
  | tooLarge (name : String)
  | readSourceFailed (e : Err)
  deriving DecidableEq, Repr

/-- The message of an error value, as `fmt.Errorf` builds it. -/
def Err.msg : Err → String
  | .cause t => t
  | .getObjectFailed o e => "Failed to get object " ++ o ++ ": " ++ e.msg
  | .fileContentsFailed p e => "Failed to get file contents at path " ++ p ++ ": " ++ e.msg
  | .createFailed e => "Failed to create object: " ++ e.msg
  | .writeFailed e => "Failed to write object: " ++ e.msg
  | .closeWriterFailed e => "Failed to close object writer: " ++ e.msg
  | .copyFailed e => "Failed to copy object: " ++ e.msg
  | .openCreateFailed e => "Failed to open/create object file: " ++ e.msg
  | .renameFailed e => "Failed to rename object: " ++ e.msg
  | .deleteFailed o e => "Failed to delete object " ++ o ++ ": " ++ e.msg
  | .createRequestFailed e => "Failed to create request: " ++ e.msg
  | .makeRequestFailed e => "Failed to make request: " ++ e.msg
  | .statusFailed st => "Failed to delete object with status " ++ st
  -- line 215 passes no operand for its verb: fmt prints the missing-operand marker
  | .readBodyFailed => "Failed to read response body: %!s(MISSING)"
  | .openSourceFailed e => "Failed to open source file: " ++ e.msg
  | .statFailed e => "Failed to get source file info: " ++ e.msg
  | .tooLarge n => n ++ " is too large to upload as a single object (max 5GB)"
  | .readSourceFailed e => "Failed to read source file: " ++ e.msg

/-- The outside cause an error value wraps, when it wraps one. -/
def Err.rootCause : Err → Option String
  | .cause t => some t
  | .getObjectFailed _ e => e.rootCause
  | .fileContentsFailed _ e => e.rootCause
  | .createFailed e => e.rootCause
  | .writeFailed e => e.rootCause
  | .closeWriterFailed e => e.rootCause
  | .copyFailed e => e.rootCause
  | .openCreateFailed e => e.rootCause
  | .renameFailed e => e.rootCause
  | .deleteFailed _ e => e.rootCause
  | .createRequestFailed e => e.rootCause
  | .makeRequestFailed e => e.rootCause
  | .statusFailed _ => none
  | .readBodyFailed => none
  | .openSourceFailed e => e.rootCause
  | .statFailed e => e.rootCause
  | .tooLarge _ => none
  | .readSourceFailed e => e.rootCause

/-- The `(string, error)` pair an operation returns. -/
abbrev Ret := String × Option Err

/-! ## The outside world -/

/-- Result of `file.Stat()`: base name and size (an `int64` in Go). -/
structure FileInfo where
  Name : String
  Size : Int

/-- A local file opened for reading: what `Stat` answers, and what `Read` does with a
buffer of a given length (the bytes it stores at the front of the buffer, and its error). -/
structure LocalFile where
  stat : Except String FileInfo
  read : Nat → List UInt8 × Option String

/-- An HTTP request value, as `http.NewRequest` returns it and `client.Do` takes it. `URL`
is the text of the parsed URL the request carries, which the library derives from the
string it was given and which need not be that string; `Header` maps a key to its
values. -/
structure Request where
  Method : String
  URL : String
  Header : List (String × List String)
  deriving DecidableEq, Repr

/-- What goes out for one request put on the wire: the method, the host and the target of
the request line. The other header fields the transport adds are left out. -/
structure Sent where
  Method : String
  Host : String
  Target : String
  deriving DecidableEq, Repr

/-- An HTTP response: status code, status text, and the error (if any) met when the body
is copied to the discard sink. -/
structure Response where
  StatusCode : Int
  Status : String
  bodyErr : Option String

/-- Content of the remote store: container name, object name, bytes of the object. -/
abbrev Store := String → String → Option (List UInt8)

/-- What one call of `client.Do` amounts to: the requests it puts on the wire, in order
(none when it fails before sending, several when it follows redirects), the response or
error it returns, and the store the server is left with. -/
structure Exchange where
  sent : List Sent
  result : Except String Response
  store : Store

/-- Everything the package takes from outside: the constants of the missing `writer`
package, library functions, the local file system, the HTTP transport and the two fields
read from the Swift connection. -/
structure Env where
  ClearLine : String
  Green : String → String
  filepathBase : String → String
  md5Sum : List UInt8 → List UInt8
  osOpen : String → Except String LocalFile
  osOpenFile : String → Option String
  newRequest : String → String → Except String Request
  clientDo : Request → Store → Exchange
  StorageUrl : String
  AuthToken : String

/-- Calls on the Swift connection (and on the object writer it hands out). -/
inductive SwiftCall where
  | ObjectCreate (container object : String) (checkHash : Bool) (hash contentType : String)
  | Write (data : List UInt8)
  | Close
  | ObjectCopy (srcContainer srcObject dstContainer dstObject : String)
  | ObjectDelete (container object : String)
  | ObjectGet (container object : String)
  deriving DecidableEq, Repr

/-- Effects an operation performs, in the order it performs them. -/
inductive Event where
  | stage (text : String)
  | swift (c : SwiftCall)
  | fileOpen (path : String)
  | fileOpenFile (path : String)
  | fileStat
  | fileRead (len : Nat)
  | fileWrite (data : List UInt8)
  | fileClose
  | newRequest (method url : String)
  | clientDo (r : Request)
  | wire (w : Sent)
  | bodyDrain
  | bodyClose
  deriving DecidableEq, Repr

/-- Mutable part of the world. `faults` scripts the transport: each call on the Swift
connection consumes the head, and fails with that text when it is `some`. -/
structure State where
  store : Store
  faults : List (Option String)
  upload : Option (String × String × List UInt8)
  trace : List Event

/-- Appends an effect to the trace. -/
def State.log (s : State) (e : Event) : State :=
  { s with trace := s.trace ++ [e] }

/-- Consumes the next scripted transport fault. -/
def State.nextFault (s : State) : Option String × State :=
  match s.faults with
  | [] => (none, s)
  | f :: rest => (f, { s with faults := rest })

/-- Store with one object written. -/
def Store.put (st : Store) (c o : String) (d : List UInt8) : Store :=
  fun c' o' => if c' = c ∧ o' = o then some d else st c' o'

/-- Store with one object removed. -/
def Store.remove (st : Store) (c o : String) : Store :=
  fun c' o' => if c' = c ∧ o' = o then none else st c' o'

/-- The Swift calls among the effects of a trace. -/
def swiftCalls : List Event → List SwiftCall
  | [] => []
  | .swift c :: t => c :: swiftCalls t
  | _ :: t => swiftCalls t

/-- The HTTP requests put on the wire among the effects of a trace. -/
def httpRequests : List Event → List Sent
  | [] => []
  | .wire w :: t => w :: httpRequests t
  | _ :: t => httpRequests t

/-- The calls of `client.Do` among the effects of a trace, with the request each was
given. -/
def clientDoCalls : List Event → List Request
  | [] => []
  | .clientDo r :: t => r :: clientDoCalls t
  | _ :: t => clientDoCalls t

/-- The calls of `http.NewRequest` among the effects of a trace, with the method and the
URL string each was given. -/
def newRequestCalls : List Event → List (String × String)
  | [] => []
  | .newRequest m u :: t => (m, u) :: newRequestCalls t
  | _ :: t => newRequestCalls t

/-! ## The Swift connection

Modelled from the spec: the storage client is an external collaborator (§1, §3); a
container is a named bucket of objects and an object a named blob. A call that fails
leaves the store as it was. -/

/-- Modelled from the spec: `SwiftConnection.ObjectCreate`, opening a write session. -/
def swiftObjectCreate (s : State) (container object : String) (checkHash : Bool)
    (hash contentType : String) : Option String × State :=
  let s := s.log (.swift (.ObjectCreate container object checkHash hash contentType))
  match s.nextFault with
  | (some e, s) => (some e, s)
  | (none, s) => (none, { s with upload := some (container, object, []) })

/-- Modelled from the spec: `Write` on the object writer. -/
def swiftWrite (s : State) (data : List UInt8) : Option String × State :=
  let s := s.log (.swift (.Write data))
  match s.nextFault with
  | (some e, s) => (some e, s)
  | (none, s) =>
    match s.upload with
    | none => (some "write on closed writer", s)
    | some (c, o, d) => (none, { s with upload := some (c, o, d ++ data) })

/-- Modelled from the spec: `Close` on the object writer, which finalizes the object. -/
def swiftClose (s : State) : Option String × State :=
  let s := s.log (.swift .Close)
  match s.nextFault with
  | (some e, s) => (some e, s)
  | (none, s) =>
    match s.upload with
    | none => (some "close on closed writer", s)
    | some (c, o, d) => (none, { s with store := s.store.put c o d, upload := none })

/-- Modelled from the spec: `SwiftConnection.ObjectCopy`; the source must exist. -/
def swiftObjectCopy (s : State) (srcContainer srcObject dstContainer dstObject : String) :
    Option String × State :=
  let s := s.log (.swift (.ObjectCopy srcContainer srcObject dstContainer dstObject))
  match s.nextFault with
  | (some e, s) => (some e, s)
  | (none, s) =>
    match s.store srcContainer srcObject with
    | none => (some "Object Not Found", s)
    | some d => (none, { s with store := s.store.put dstContainer dstObject d })

/-- Modelled from the spec: `SwiftConnection.ObjectDelete`; the object must exist. -/
def swiftObjectDelete (s : State) (container object : String) : Option String × State :=
  let s := s.log (.swift (.ObjectDelete container object))
  match s.nextFault with
  | (some e, s) => (some e, s)
  | (none, s) =>
    match s.store container object with
    | none => (some "Object Not Found", s)
    | some _ => (none, { s with store := s.store.remove container object })

/-- Modelled from the spec: `SwiftConnection.ObjectGet`, streaming the object into the
open local file. -/
def swiftObjectGet (s : State) (container object : String) : Option String × State :=
  let s := s.log (.swift (.ObjectGet container object))
  match s.nextFault with
  | (some e, s) => (some e, s)
  | (none, s) =>
    match s.store container object with
    | none => (some "Object Not Found", s)
    | some d => (none, s.log (.fileWrite d))

/-! ## Library functions -/

/-- Conversion `uint(x)` of an `int64` on a 64-bit platform (the only ones on which the
constant `maxObjectSize` fits `uint`). -/
def uint (x : Int) : Nat := (x % (2 : Int) ^ 64).toNat

/-- One hexadecimal digit, lower case. -/
def hexDigit (n : Nat) : Char :=
  if n < 10 then Char.ofNat (48 + n) else Char.ofNat (87 + n)

/-- Go's `hex.EncodeToString`: two lower-case digits per byte. -/
def hexEncodeToString (bs : List UInt8) : String :=
  String.mk (bs.flatMap fun b => [hexDigit (b.toNat / 16), hexDigit (b.toNat % 16)])

/-- Go's `filepath.Base` on a platform whose separator is the slash. -/
def unixBase (path : String) : String :=
  if path = "" then "." else
    let stripped := (path.data.reverse.dropWhile (· = '/'))
    let last := (stripped.takeWhile (· ≠ '/')).reverse
    if last = [] then "/" else String.mk last

/-- Go's `Header.Set` for a key in canonical form: the key is left with the one value. -/
def headerSet (h : List (String × List String)) (key value : String) :
    List (String × List String) :=
  h.filter (fun kv => kv.1 ≠ key) ++ [(key, [value])]

/-- Go's `Header.Values`: all values recorded for a key. -/
def headerValues (h : List (String × List String)) (key : String) : List String :=
  (h.filter (fun kv => kv.1 = key)).flatMap (fun kv => kv.2)

/-! ## `object.go` -/

/-- Line 18: `const maxObjectSize uint = 1000 * 1000 * 1000 * 5`. -/
def maxObjectSize : Nat := 1000 * 1000 * 1000 * 5

/-- Lines 248-253: `hashSource`. -/
def hashSource (env : Env) (sourceData : List UInt8) : String :=
  hexEncodeToString (env.md5Sum sourceData)

/-- Lines 238-239: the buffer `make([]byte, len)` once `Read` has stored `got` at its
front; the bytes `Read` did not reach stay zero. -/
def fillBuffer (len : Nat) (got : List UInt8) : List UInt8 :=
  (got ++ List.replicate (len - got.length) 0).take len

/-- Lines 229-244: the part of `getFileContents` that runs between the registration of
the deferred `file.Close()` and the return. -/
def getFileContentsBody (file : LocalFile) (s : State) : Except Err (List UInt8) × State :=
  let s := s.log .fileStat
  match file.stat with
  | .error e => (.error (.statFailed (.cause e)), s)
  | .ok info =>
    if uint info.Size > maxObjectSize then
      (.error (.tooLarge info.Name), s)
    else
      let len := info.Size.toNat
      let s := s.log (.fileRead len)
      let r := file.read len
      match r.2 with
      | some e => (.error (.readSourceFailed (.cause e)), s)
      | none => (.ok (fillBuffer len r.1), s)

/-- Lines 222-245: `getFileContents`. -/
def getFileContents (env : Env) (sourcePath : String) (s : State) :
    Except Err (List UInt8) × State :=
  let s := s.log (.fileOpen sourcePath)
  match env.osOpen sourcePath with
  | .error e => (.error (.openSourceFailed (.cause e)), s)
  | .ok file =>
    let r := getFileContentsBody file s
    (r.1, r.2.log .fileClose)

/-- Lines 64-68: the object name `PutObject` uploads to, the base name of the source path
unless the arguments end in the pair `-n <name>`. -/
def putObjectName (env : Env) (args : List String) (path : String) : Option String :=
  if args.length = 7 then do
    let flag ← args[5]?
    if flag = "-n" then args[6]? else pure (env.filepathBase path)
  else pure (env.filepathBase path)

/-- Lines 59-94: `PutObject`. -/
def PutObject (env : Env) (args : List String) (s : State) : Option (Ret × State) := do
  let s := s.log (.stage "Uploading object")
  let container ← args[3]?
  let path ← args[4]?
  let object ← putObjectName env args path
  match getFileContents env path s with
  | (.error e, s) => pure (("", some (.fileContentsFailed path e)), s)
  | (.ok data, s) =>
    let hash := hashSource env data
    match swiftObjectCreate s container object true hash "" with
    | (some e, s) => pure (("", some (.createFailed (.cause e))), s)
    | (none, s) =>
      match swiftWrite s data with
      | (some e, s) => pure (("", some (.writeFailed (.cause e))), s)
      | (none, s) =>
        match swiftClose s with
        | (some e, s) => pure (("", some (.closeWriterFailed (.cause e))), s)
        | (none, s) =>
          pure (("\r" ++ env.ClearLine ++ env.Green "OK" ++ "\n\nUploaded object " ++ object
            ++ " to container " ++ container ++ "\n", none), s)

/-- Lines 97-110: `CopyObject`. -/
def CopyObject (env : Env) (args : List String) (s : State) : Option (Ret × State) := do
  let s := s.log (.stage "Copying object")
  let container ← args[3]?
  let object ← args[4]?
  let newContainer ← args[5]?
  match swiftObjectCopy s container object newContainer object with
  | (some e, s) => pure (("", some (.copyFailed (.cause e))), s)
  | (none, s) =>
    pure (("\r" ++ env.ClearLine ++ env.Green "OK" ++ "\n\nCopied object " ++ object
      ++ " to container " ++ newContainer ++ "\n", none), s)

/-- Lines 126-131: the part of `GetObject` that runs between the registration of the
deferred `object.Close()` and the return. -/
def GetObjectBody (env : Env) (container objectName destinationPath : String) (s : State) :
    Ret × State :=
  match swiftObjectGet s container objectName with
  | (some e, s) => (("", some (.getObjectFailed objectName (.cause e))), s)
  | (none, s) =>
    (("\r" ++ env.ClearLine ++ env.Green "OK" ++ "\n\nDownloaded object " ++ objectName
      ++ " to " ++ destinationPath ++ "\n", none), s)

/-- Lines 113-132: `GetObject`. -/
def GetObject (env : Env) (args : List String) (s : State) : Option (Ret × State) := do
  let s := s.log (.stage "Downloading object")
  let container ← args[3]?
  let objectName ← args[4]?
  let destinationPath ← args[5]?
  let s := s.log (.fileOpenFile destinationPath)
  match env.osOpenFile destinationPath with
  | some e => pure (("", some (.openCreateFailed (.cause e))), s)
  | none =>
    let r := GetObjectBody env container objectName destinationPath s
    pure (r.1, r.2.log .fileClose)

/-- Lines 135-153: `RenameObject`. -/
def RenameObject (env : Env) (args : List String) (s : State) : Option (Ret × State) := do
  let s := s.log (.stage "Renaming object")
  let container ← args[3]?
  let object ← args[4]?
  let newName ← args[5]?
  match swiftObjectCopy s container object container newName with
  | (some e, s) => pure (("", some (.renameFailed (.cause e))), s)
  | (none, s) =>
    match swiftObjectDelete s container object with
    | (some e, s) => pure (("", some (.deleteFailed object (.cause e))), s)
    | (none, s) =>
      pure (("\r" ++ env.ClearLine ++ env.Green "OK" ++ "\n\nRenamed object " ++ object
        ++ " to " ++ newName ++ "\n", none), s)

/-- Lines 177-184: `deleteObject`. -/
def deleteObject (container objectName : String) (s : State) : Option Err × State :=
  match swiftObjectDelete s container objectName with
  | (some e, s) => (some (.deleteFailed objectName (.cause e)), s)
  | (none, s) => (none, s)

/-- Lines 213-218: the part of `deleteLargeObject` that runs between the registration of
the deferred `response.Body.Close()` and the return. -/
def deleteLargeObjectBody (response : Response) (s : State) : Option Err × State :=
  let s := s.log .bodyDrain
  match response.bodyErr with
  | some _ => (some .readBodyFailed, s)
  | none => (none, s)

/-- Lines 193 and 196: the URL of the manifest delete. -/
def deleteUrl (env : Env) (container objectName : String) : String :=
  env.StorageUrl ++ "/" ++ container ++ "/" ++ objectName ++ "?multipart-manifest=delete"

/-- Lines 194 and 202: `request.Header.Set("X-Auth-Token", authToken)`. -/
def setAuthToken (env : Env) (request : Request) : Request :=
  { request with Header := headerSet request.Header "X-Auth-Token" env.AuthToken }

/-- Lines 187-219: `deleteLargeObject`. -/
def deleteLargeObject (env : Env) (container objectName : String) (s : State) :
    Option Err × State :=
  let s := s.log (.newRequest "DELETE" (deleteUrl env container objectName))
  match env.newRequest "DELETE" (deleteUrl env container objectName) with
  | .error e => (some (.createRequestFailed (.cause e)), s)
  | .ok request =>
    let request := setAuthToken env request
    let s := s.log (.clientDo request)
    let x := env.clientDo request s.store
    let s := { s with store := x.store, trace := s.trace ++ x.sent.map .wire }
    match x.result with
    | .error e => (some (.makeRequestFailed (.cause e)), s)
    | .ok response =>
      if response.StatusCode < 200 ∨ response.StatusCode ≥ 300 then
        (some (.statusFailed response.Status), s)
      else
        let r := deleteLargeObjectBody response s
        (r.1, r.2.log .bodyClose)

/-- Line 164: the condition `len(args) == 6 && args[5] == "-l"`. -/
def deleteIsLarge (args : List String) : Option Bool :=
  if args.length = 6 then do
    let flag ← args[5]?
    pure (decide (flag = "-l"))
  else pure false

/-- Lines 156-174: `DeleteObject`. -/
def DeleteObject (env : Env) (args : List String) (s : State) : Option (Ret × State) := do
  let s := s.log (.stage "Deleting object")
  let container ← args[3]?
  let object ← args[4]?
  let large ← deleteIsLarge args
  let r := if large then deleteLargeObject env container object s
    else deleteObject container object s
  match r with
  | (some e, s) => pure (("", some (.deleteFailed object e)), s)
  | (none, s) =>
    pure (("\r" ++ env.ClearLine ++ env.Green "OK" ++ "\n\nDeleted object " ++ object
      ++ " from container " ++ container ++ "\n", none), s)

/-! ## Sample worlds -/

/-- A store holding the single object `a` (two bytes) in container `c`. -/
def sampleStore : Store :=
  fun c o => if c = "c" ∧ o = "a" then some [1, 2] else none

/-- A state with that store, no scripted fault, no pending upload and an empty trace. -/
def sampleState : State :=
  { store := sampleStore, faults := [], upload := none, trace := [] }

/-- A file of exactly 5,000,000,000 zero bytes; one `Read` stores at most 2,147,479,552
bytes, the most a single read system call transfers. -/
def ceilingFile : LocalFile :=
  { stat := .ok { Name := "big.bin", Size := 5000000000 }
    read := fun len => (List.replicate (min len 2147479552) 0, none) }

/-- A file whose size is one byte over the ceiling. -/
def overCeilingFile : LocalFile :=
  { stat := .ok { Name := "huge.bin", Size := 5000000001 }
    read := fun len => (List.replicate (min len 2147479552) 0, none) }

/-- A three-byte file. -/
def smallFile : LocalFile :=
  { stat := .ok { Name := "f.txt", Size := 3 }
    read := fun len => ([7, 8, 9].take len, none) }

/-- What `http.NewRequest` answers in the sample worlds, for the URLs used below: the
URL of object `a` parses to itself; so does, as a text, the URL of object `a#b`, whose
path ends at the number sign; the URL of object `50%off` is refused for its escape. Any
other URL is refused here, which says nothing about the library. -/
def sampleNewRequest (method url : String) : Except String Request :=
  if url = "https://host/v1/acct/c/a?multipart-manifest=delete" then
    .ok { Method := method, URL := url, Header := [] }
  else if url = "https://host/v1/acct/c/a#b?multipart-manifest=delete" then
    .ok { Method := method, URL := url, Header := [] }
  else if url = "https://host/v1/acct/c/50%off?multipart-manifest=delete" then
    .error ("parse \"https://host/v1/acct/c/50%off?multipart-manifest=delete\": " ++
      "invalid URL escape \"%of\"")
  else .error "URL outside the sample"

/-- What the transport puts on the wire first for a request of the sample worlds: the
path and the query of its URL, without the fragment. -/
def sampleSent (r : Request) : List Sent :=
  if r.URL = "https://host/v1/acct/c/a?multipart-manifest=delete" then
    [{ Method := r.Method, Host := "host", Target := "/v1/acct/c/a?multipart-manifest=delete" }]
  else if r.URL = "https://host/v1/acct/c/a#b?multipart-manifest=delete" then
    [{ Method := r.Method, Host := "host", Target := "/v1/acct/c/a" }]
  else []

/-- An environment with three local files and a server that answers every request of the
sample with 204 and removes object `a` of container `c`. The field `md5Sum` is a stand-in
that answers the digest of the empty input whatever it is given; no statement below
depends on the digest. -/
def sampleEnv : Env where
  ClearLine := "\x1b[2K"
  Green := fun t => "\x1b[32m" ++ t ++ "\x1b[0m"
  filepathBase := unixBase
  md5Sum := fun _ =>
    [0xd4, 0x1d, 0x8c, 0xd9, 0x8f, 0x00, 0xb2, 0x04, 0xe9, 0x80, 0x09, 0x98, 0xec, 0xf8, 0x42, 0x7e]
  osOpen := fun p =>
    if p = "/data/big.bin" then .ok ceilingFile
    else if p = "/data/huge.bin" then .ok overCeilingFile
    else if p = "/tmp/f.txt" then .ok smallFile
    else .error ("open " ++ p ++ ": no such file or directory")
  osOpenFile := fun _ => none
  newRequest := sampleNewRequest
  clientDo := fun r st =>
    { sent := sampleSent r
      result := .ok { StatusCode := 204, Status := "204 No Content", bodyErr := none }
      store := st.remove "c" "a" }
  StorageUrl := "https://host/v1/acct"
  AuthToken := "tok"

/-- The sample environment with a server that answers 404 to every request. -/
def notFoundEnv : Env :=
  { sampleEnv with
    clientDo := fun r st =>
      { sent := sampleSent r
        result := .ok { StatusCode := 404, Status := "404 Not Found", bodyErr := none }
        store := st } }

/-- The sample environment with a server that answers 200 and whose body breaks off while
it is drained. -/
def brokenBodyEnv : Env :=
  { sampleEnv with
    clientDo := fun r st =>
      { sent := sampleSent r
        result := .ok { StatusCode := 200, Status := "200 OK", bodyErr := some "unexpected EOF" }
        store := st.remove "c" "a" } }

/-- The sample environment with a server that answers the first request with 307 and a
new location, which `client.Do` follows with a second DELETE, answered with 204. -/
def redirectEnv : Env :=
  { sampleEnv with
    clientDo := fun r st =>
      { sent := sampleSent r ++
          [{ Method := r.Method, Host := "host2",
             Target := "/v1/acct/c/a?multipart-manifest=delete" }]
        result := .ok { StatusCode := 204, Status := "204 No Content", bodyErr := none }
        store := st.remove "c" "a" } }

/-- The sample state with a transport that lets the first call through and fails the
second. -/
def secondCallFails : State :=
  { sampleState with faults := [none, some "connection reset"] }

/-- The sample state with a transport that fails the first call. -/
def firstCallFails : State :=
  { sampleState with faults := [some "connection reset"] }

/-! ## Auxiliary facts -/

theorem uint_of_nonneg (x : Int) (h0 : 0 ≤ x) (h63 : x < 2 ^ 63) : uint x = x.toNat := by
  unfold uint
  rw [Int.emod_eq_of_lt h0 (by omega)]

theorem maxObjectSize_eq : maxObjectSize = 5000000000 := by
  decide

theorem swiftCalls_append (a b : List Event) :
    swiftCalls (a ++ b) = swiftCalls a ++ swiftCalls b := by
  induction a with
  | nil => rfl
  | cons e t ih => cases e <;> simp [swiftCalls, ih]

theorem httpRequests_append (a b : List Event) :
    httpRequests (a ++ b) = httpRequests a ++ httpRequests b := by
  induction a with
  | nil => rfl
  | cons e t ih => cases e <;> simp [httpRequests, ih]

theorem clientDoCalls_append (a b : List Event) :
    clientDoCalls (a ++ b) = clientDoCalls a ++ clientDoCalls b := by
  induction a with
  | nil => rfl
  | cons e t ih => cases e <;> simp [clientDoCalls, ih]

theorem newRequestCalls_append (a b : List Event) :
    newRequestCalls (a ++ b) = newRequestCalls a ++ newRequestCalls b := by
  induction a with
  | nil => rfl
  | cons e t ih => cases e <;> simp [newRequestCalls, ih]

theorem swiftCalls_wire (l : List Sent) : swiftCalls (l.map .wire) = [] := by
  induction l with
  | nil => rfl
  | cons w t ih => simpa [swiftCalls] using ih

theorem clientDoCalls_wire (l : List Sent) : clientDoCalls (l.map .wire) = [] := by
  induction l with
  | nil => rfl
  | cons w t ih => simpa [clientDoCalls] using ih

theorem newRequestCalls_wire (l : List Sent) : newRequestCalls (l.map .wire) = [] := by
  induction l with
  | nil => rfl
  | cons w t ih => simpa [newRequestCalls] using ih

theorem httpRequests_wire (l : List Sent) : httpRequests (l.map .wire) = l := by
  induction l with
  | nil => rfl
  | cons w t ih => simpa [httpRequests] using ih

/-- After `Header.Set` the key has exactly the value set. -/
theorem headerValues_headerSet (h : List (String × List String)) (key value : String) :
    headerValues (headerSet h key value) key = [value] := by
  simp [headerValues, headerSet, List.filter_append, List.filter_filter]

/-- The size guard of `getFileContents`, for a size in the range of `int64`. -/
theorem guard_iff (x : Int) (h0 : 0 ≤ x) (h63 : x < 2 ^ 63) :
    uint x > maxObjectSize ↔ x > 5000000000 := by
  rw [uint_of_nonneg x h0 h63, maxObjectSize_eq]
  omega

/-! ## Claims -/

/-- C2: `maxObjectSize` is 5,000,000,000, and for a file that opens and stats with a
non-negative size `s` (an `int64`), `getFileContents` returns the too-large error exactly
when `s > 5,000,000,000`; when it does, the file has been opened, stat-ed and closed and
no read was issued. -/
theorem getFileContents_tooLarge_iff (env : Env) (path : String) (s : State)
    (file : LocalFile) (info : FileInfo)
    (hopen : env.osOpen path = .ok file) (hstat : file.stat = .ok info)
    (h0 : 0 ≤ info.Size) (h63 : info.Size < 2 ^ 63) :
    maxObjectSize = 5000000000 ∧
    ((getFileContents env path s).1 = .error (.tooLarge info.Name) ↔
      info.Size > 5000000000) ∧
    (Err.tooLarge info.Name).msg =
      info.Name ++ " is too large to upload as a single object (max 5GB)" ∧
    (info.Size > 5000000000 →
      (getFileContents env path s).2 =
        { s with trace := s.trace ++ [.fileOpen path, .fileStat, .fileClose] }) := by
  have hg := guard_iff info.Size h0 h63
  refine ⟨maxObjectSize_eq, ?_, rfl, ?_⟩
  · unfold getFileContents getFileContentsBody
    simp only [hopen, hstat]
    by_cases hb : info.Size > 5000000000
    · simp [hg.2 hb, hb]
    · have : ¬ uint info.Size > maxObjectSize := fun h => hb (hg.1 h)
      simp only [this, if_false, hb, iff_false]
      cases (file.read info.Size.toNat).2 <;> simp
  · intro hb
    unfold getFileContents getFileContentsBody
    simp [hopen, hstat, hg.2 hb, State.log]

/-- Witness of C2 at a file one byte over the ceiling. -/
theorem getFileContents_tooLarge_iff_witness :
    maxObjectSize = 5000000000 ∧
    ((getFileContents sampleEnv "/data/huge.bin" sampleState).1 = .error (.tooLarge "huge.bin") ↔
      (5000000001 : Int) > 5000000000) ∧
    (Err.tooLarge "huge.bin").msg =
      "huge.bin" ++ " is too large to upload as a single object (max 5GB)" ∧
    ((5000000001 : Int) > 5000000000 →
      (getFileContents sampleEnv "/data/huge.bin" sampleState).2 =
        { sampleState with
          trace := sampleState.trace ++ [.fileOpen "/data/huge.bin", .fileStat, .fileClose] }) :=
  getFileContents_tooLarge_iff sampleEnv "/data/huge.bin" sampleState overCeilingFile
    { Name := "huge.bin", Size := 5000000001 } rfl rfl (by decide) (by decide)

theorem putObjectName_eq (env : Env) (args : List String) (path : String) :
    putObjectName env args path =
      some (if args.length = 7 ∧ args[5]? = some "-n" then args.getD 6 ""
        else env.filepathBase path) := by
  unfold putObjectName
  by_cases h7 : args.length = 7
  · have h5 : args[5]? = some args[5] := List.getElem?_eq_getElem (by omega)
    have h6 : args[6]? = some args[6] := List.getElem?_eq_getElem (by omega)
    have h6d : args.getD 6 "" = args[6] := by
      rw [List.getD_eq_getElem?_getD, h6]; rfl
    by_cases hf : args[5] = "-n"
    · simp [h7, h5, h6, h6d, hf]
    · simp [h7, h5, h6d, hf]
  · simp [h7]

/-- C1 (amended): for a file whose size (an `int64`) is strictly over 5,000,000,000,
`PutObject` returns the empty string and the too-large error wrapped with the path, the
only effects are the stage report and the open, stat and close of the file, and no call
is made on the connection. -/
theorem PutObject_over_ceiling (env : Env) (args : List String) (s : State)
    (file : LocalFile) (info : FileInfo) (hlen : 5 ≤ args.length)
    (hopen : env.osOpen args[4] = .ok file) (hstat : file.stat = .ok info)
    (hbig : info.Size > 5000000000) (h63 : info.Size < 2 ^ 63) :
    PutObject env args s =
      some (("", some (.fileContentsFailed args[4] (.tooLarge info.Name))),
        { s with trace := s.trace ++
            [.stage "Uploading object", .fileOpen args[4], .fileStat, .fileClose] }) ∧
    swiftCalls (s.trace ++
      [.stage "Uploading object", .fileOpen args[4], .fileStat, .fileClose]) =
      swiftCalls s.trace := by
  have h3 : args[3]? = some args[3] := List.getElem?_eq_getElem (by omega)
  have h4 : args[4]? = some args[4] := List.getElem?_eq_getElem (by omega)
  have hg := (guard_iff info.Size (by omega) h63).2 hbig
  constructor
  · simp [PutObject, h3, h4, putObjectName_eq env args _, getFileContents,
      getFileContentsBody, hopen, hstat, hg, State.log]
  · simp [swiftCalls_append, swiftCalls]

/-- Witness of C1 (amended) at a file one byte over the ceiling. -/
theorem PutObject_over_ceiling_witness :
    PutObject sampleEnv ["os", "put-object", "svc", "c", "/data/huge.bin"] sampleState =
      some (("", some (.fileContentsFailed "/data/huge.bin" (.tooLarge "huge.bin"))),
        { sampleState with trace := sampleState.trace ++
            [.stage "Uploading object", .fileOpen "/data/huge.bin", .fileStat, .fileClose] }) ∧
    swiftCalls (sampleState.trace ++
      [.stage "Uploading object", .fileOpen "/data/huge.bin", .fileStat, .fileClose]) =
      swiftCalls sampleState.trace :=
  PutObject_over_ceiling sampleEnv ["os", "put-object", "svc", "c", "/data/huge.bin"]
    sampleState overCeilingFile { Name := "huge.bin", Size := 5000000001 }
    (by decide) rfl rfl (by decide) (by decide)

/-- What `PutObject` does when the file is read and the transport has no fault left:
it creates the object, writes the buffer, closes the writer and reports success. -/
theorem PutObject_upload (env : Env) (args : List String) (s : State)
    (file : LocalFile) (info : FileInfo) (hlen : 5 ≤ args.length)
    (hopen : env.osOpen args[4] = .ok file) (hstat : file.stat = .ok info)
    (h0 : 0 ≤ info.Size) (hmax : info.Size ≤ 5000000000)
    (hread : (file.read info.Size.toNat).2 = none) (hf : s.faults = []) :
    (PutObject env args s).map (fun r => (r.1, swiftCalls r.2.trace)) =
      some (("\r" ++ env.ClearLine ++ env.Green "OK" ++ "\n\nUploaded object " ++
          (if args.length = 7 ∧ args[5]? = some "-n" then args.getD 6 ""
            else env.filepathBase args[4]) ++ " to container " ++ args[3] ++ "\n", none),
        swiftCalls s.trace ++
          [.ObjectCreate args[3]
            (if args.length = 7 ∧ args[5]? = some "-n" then args.getD 6 ""
              else env.filepathBase args[4]) true
            (hashSource env (fillBuffer info.Size.toNat (file.read info.Size.toNat).1)) "",
          .Write (fillBuffer info.Size.toNat (file.read info.Size.toNat).1), .Close]) := by
  have h3 : args[3]? = some args[3] := List.getElem?_eq_getElem (by omega)
  have h4 : args[4]? = some args[4] := List.getElem?_eq_getElem (by omega)
  have hg : ¬ uint info.Size > maxObjectSize := by
    rw [guard_iff info.Size h0 (by omega)]; omega
  simp [PutObject, h3, h4, putObjectName_eq env args _, getFileContents,
      getFileContentsBody, hopen, hstat, hg, hread, swiftObjectCreate, swiftWrite, swiftClose,
      State.log, State.nextFault, hf, swiftCalls_append, swiftCalls]

/-- C1 (counterexample): a file of exactly 5,000,000,000 bytes passes the size guard;
`PutObject` reports success and has made three calls on the connection. -/
theorem PutObject_at_ceiling_uploads :
    ceilingFile.stat.toOption.map (·.Size) = some 5000000000 ∧
    (PutObject sampleEnv ["os", "put-object", "svc", "c", "/data/big.bin"] sampleState).map
        (fun r => (r.1, swiftCalls r.2.trace)) =
      some (("\r" ++ sampleEnv.ClearLine ++ sampleEnv.Green "OK" ++ "\n\nUploaded object " ++
          "big.bin" ++ " to container " ++ "c" ++ "\n", none),
        [.ObjectCreate "c" "big.bin" true
            (hashSource sampleEnv (fillBuffer 5000000000 (ceilingFile.read 5000000000).1)) "",
          .Write (fillBuffer 5000000000 (ceilingFile.read 5000000000).1), .Close]) :=
  ⟨rfl, PutObject_upload sampleEnv ["os", "put-object", "svc", "c", "/data/big.bin"]
    sampleState ceilingFile { Name := "big.bin", Size := 5000000000 }
    (by decide) rfl rfl (by decide) (by decide) rfl rfl⟩

/-- The effects of `deleteLargeObject` when `http.NewRequest` refuses the URL: the one
call of `http.NewRequest`, nothing else. -/
theorem deleteLargeObject_refused (env : Env) (c o : String) (s : State) (e : String)
    (hreq : env.newRequest "DELETE" (deleteUrl env c o) = .error e) :
    deleteLargeObject env c o s =
      (some (.createRequestFailed (.cause e)),
        s.log (.newRequest "DELETE" (deleteUrl env c o))) := by
  unfold deleteLargeObject
  simp only [hreq]

/-- The trace of `deleteLargeObject` when `http.NewRequest` returns a request: the call of
`http.NewRequest`, the one call of `client.Do` on the request with the token set, what
that call puts on the wire, and then at most the drain and the close of the body. -/
theorem deleteLargeObject_trace (env : Env) (c o : String) (s : State) (request : Request)
    (hreq : env.newRequest "DELETE" (deleteUrl env c o) = .ok request) :
    ∃ rest, (deleteLargeObject env c o s).2.trace =
        s.trace ++ [.newRequest "DELETE" (deleteUrl env c o),
          .clientDo (setAuthToken env request)] ++
        (env.clientDo (setAuthToken env request) s.store).sent.map .wire ++ rest ∧
      (rest = [] ∨ rest = [.bodyDrain, .bodyClose]) := by
  unfold deleteLargeObject deleteLargeObjectBody
  simp only [hreq, State.log]
  cases (env.clientDo (setAuthToken env request) s.store).result with
  | error e => exact ⟨[], by simp, Or.inl rfl⟩
  | ok response =>
    simp only []
    split
    · exact ⟨[], by simp, Or.inl rfl⟩
    · cases response.bodyErr <;> exact ⟨[.bodyDrain, .bodyClose], by simp, Or.inr rfl⟩

/-- No call is made on the Swift connection by `deleteLargeObject`. -/
theorem deleteLargeObject_swiftCalls (env : Env) (c o : String) (s : State) :
    swiftCalls (deleteLargeObject env c o s).2.trace = swiftCalls s.trace := by
  cases hreq : env.newRequest "DELETE" (deleteUrl env c o) with
  | error e =>
    rw [deleteLargeObject_refused env c o s e hreq]
    simp [State.log, swiftCalls_append, swiftCalls]
  | ok request =>
    obtain ⟨rest, htr, hrest⟩ := deleteLargeObject_trace env c o s request hreq
    rw [htr]
    rcases hrest with h | h <;>
      simp [h, swiftCalls_append, swiftCalls, swiftCalls_wire]

/-- C3: when the request is created, sent and answered, and the body drains, an error is
returned exactly when the status code is below 200 or at least 300, and that error is the
status failure, whose message ends in the status text of the response. -/
theorem deleteLargeObject_status (env : Env) (c o : String) (s : State)
    (request : Request) (response : Response)
    (hreq : env.newRequest "DELETE" (deleteUrl env c o) = .ok request)
    (hdo : (env.clientDo (setAuthToken env request) s.store).result = .ok response)
    (hbody : response.bodyErr = none) :
    ((deleteLargeObject env c o s).1 ≠ none ↔
      (response.StatusCode < 200 ∨ response.StatusCode ≥ 300)) ∧
    ((response.StatusCode < 200 ∨ response.StatusCode ≥ 300) →
      (deleteLargeObject env c o s).1 = some (.statusFailed response.Status)) ∧
    (Err.statusFailed response.Status).msg =
      "Failed to delete object with status " ++ response.Status ∧
    response.Status.data <:+: (Err.statusFailed response.Status).msg.data := by
  refine ⟨?_, ?_, rfl, ?_⟩
  · unfold deleteLargeObject deleteLargeObjectBody
    simp only [hreq, State.log, hdo, hbody]
    by_cases hc : response.StatusCode < 200 ∨ response.StatusCode ≥ 300
    · simp [hc]
    · simp [hc]
  · intro hc
    unfold deleteLargeObject
    simp only [hreq, State.log, hdo]
    simp [hc]
  · show response.Status.data <:+:
      ("Failed to delete object with status " ++ response.Status).data
    rw [String.data_append]
    exact (List.suffix_append _ _).isInfix

/-- Witness of C3: a 404 answer fails with its status text, a 204 answer succeeds. -/
theorem deleteLargeObject_status_witness :
    (deleteLargeObject notFoundEnv "c" "a" sampleState).1 =
      some (.statusFailed "404 Not Found") ∧
    (deleteLargeObject sampleEnv "c" "a" sampleState).1 = none :=
  ⟨(deleteLargeObject_status notFoundEnv "c" "a" sampleState
      { Method := "DELETE", URL := "https://host/v1/acct/c/a?multipart-manifest=delete",
        Header := [] }
      { StatusCode := 404, Status := "404 Not Found", bodyErr := none }
      rfl rfl rfl).2.1 (by decide),
    Decidable.not_not.mp (mt (deleteLargeObject_status sampleEnv "c" "a" sampleState
      { Method := "DELETE", URL := "https://host/v1/acct/c/a?multipart-manifest=delete",
        Header := [] }
      { StatusCode := 204, Status := "204 No Content", bodyErr := none }
      rfl rfl rfl).1.mp (by decide))⟩

/-- C4 (amended): `deleteLargeObject` calls `http.NewRequest` exactly once, with the method
DELETE and the URL string `<storage url>/<container>/<object>?multipart-manifest=delete`,
and makes no call on the Swift connection. When that call fails, `client.Do` is not called
and nothing goes on the wire. When it returns a request, `client.Do` is called exactly
once, on that request with its `X-Auth-Token` header set to exactly the token of the
connection, and what goes on the wire is what that one call sends. -/
theorem deleteLargeObject_one_call (env : Env) (c o : String) (s : State) :
    newRequestCalls (deleteLargeObject env c o s).2.trace =
      newRequestCalls s.trace ++
        [("DELETE", env.StorageUrl ++ "/" ++ c ++ "/" ++ o ++ "?multipart-manifest=delete")] ∧
    swiftCalls (deleteLargeObject env c o s).2.trace = swiftCalls s.trace ∧
    (∀ e, env.newRequest "DELETE"
        (env.StorageUrl ++ "/" ++ c ++ "/" ++ o ++ "?multipart-manifest=delete") = .error e →
      clientDoCalls (deleteLargeObject env c o s).2.trace = clientDoCalls s.trace ∧
      httpRequests (deleteLargeObject env c o s).2.trace = httpRequests s.trace) ∧
    (∀ r, env.newRequest "DELETE"
        (env.StorageUrl ++ "/" ++ c ++ "/" ++ o ++ "?multipart-manifest=delete") = .ok r →
      clientDoCalls (deleteLargeObject env c o s).2.trace =
        clientDoCalls s.trace ++
          [{ r with Header := headerSet r.Header "X-Auth-Token" env.AuthToken }] ∧
      headerValues (headerSet r.Header "X-Auth-Token" env.AuthToken) "X-Auth-Token" =
        [env.AuthToken] ∧
      httpRequests (deleteLargeObject env c o s).2.trace =
        httpRequests s.trace ++
          (env.clientDo { r with Header := headerSet r.Header "X-Auth-Token" env.AuthToken }
            s.store).sent) := by
  refine ⟨?_, deleteLargeObject_swiftCalls env c o s, ?_, ?_⟩
  · cases hreq : env.newRequest "DELETE" (deleteUrl env c o) with
    | error e =>
      rw [deleteLargeObject_refused env c o s e hreq]
      simp [State.log, newRequestCalls_append, newRequestCalls, deleteUrl]
    | ok request =>
      obtain ⟨rest, htr, hrest⟩ := deleteLargeObject_trace env c o s request hreq
      rw [htr]
      rcases hrest with h | h <;>
        simp [h, newRequestCalls_append, newRequestCalls, newRequestCalls_wire, deleteUrl]
  · intro e hreq
    rw [deleteLargeObject_refused env c o s e hreq]
    simp [State.log, clientDoCalls_append, clientDoCalls, httpRequests_append, httpRequests]
  · intro r hreq
    obtain ⟨rest, htr, hrest⟩ := deleteLargeObject_trace env c o s r hreq
    rw [htr]
    refine ⟨?_, headerValues_headerSet _ _ _, ?_⟩
    · rcases hrest with h | h <;>
        simp [h, clientDoCalls_append, clientDoCalls, clientDoCalls_wire, setAuthToken]
    · rcases hrest with h | h <;>
        simp [h, httpRequests_append, httpRequests, httpRequests_wire, setAuthToken]

/-- Witness of C4 (amended): for object `a` one call of `client.Do` with the token, for
object `50%off` none. -/
theorem deleteLargeObject_one_call_witness :
    (clientDoCalls (deleteLargeObject sampleEnv "c" "a" sampleState).2.trace =
        clientDoCalls sampleState.trace ++
          [{ Method := "DELETE", URL := "https://host/v1/acct/c/a?multipart-manifest=delete",
             Header := headerSet [] "X-Auth-Token" "tok" }] ∧
      headerValues (headerSet [] "X-Auth-Token" "tok") "X-Auth-Token" = ["tok"] ∧
      httpRequests (deleteLargeObject sampleEnv "c" "a" sampleState).2.trace =
        httpRequests sampleState.trace ++
          (sampleEnv.clientDo
            { Method := "DELETE", URL := "https://host/v1/acct/c/a?multipart-manifest=delete",
              Header := headerSet [] "X-Auth-Token" "tok" } sampleState.store).sent) ∧
    (clientDoCalls (deleteLargeObject sampleEnv "c" "50%off" sampleState).2.trace =
        clientDoCalls sampleState.trace ∧
      httpRequests (deleteLargeObject sampleEnv "c" "50%off" sampleState).2.trace =
        httpRequests sampleState.trace) :=
  ⟨(deleteLargeObject_one_call sampleEnv "c" "a" sampleState).2.2.2
      { Method := "DELETE", URL := "https://host/v1/acct/c/a?multipart-manifest=delete",
        Header := [] } rfl,
    (deleteLargeObject_one_call sampleEnv "c" "50%off" sampleState).2.2.1 _ rfl⟩

/-- C4 (counterexample): three inputs at which the claim as stated fails. For the object
name `50%off` the request cannot be created and nothing is sent. For the object name `a#b`
the request is created, and what is sent is a DELETE of `/v1/acct/c/a` without the
manifest query. For a server that answers 307, the one call of `client.Do` sends two
requests. -/
theorem deleteLargeObject_requests_differ :
    ((deleteLargeObject sampleEnv "c" "50%off" sampleState).1 =
        some (.createRequestFailed (.cause
          ("parse \"https://host/v1/acct/c/50%off?multipart-manifest=delete\": " ++
            "invalid URL escape \"%of\""))) ∧
      httpRequests (deleteLargeObject sampleEnv "c" "50%off" sampleState).2.trace = []) ∧
    httpRequests (deleteLargeObject sampleEnv "c" "a#b" sampleState).2.trace =
      [{ Method := "DELETE", Host := "host", Target := "/v1/acct/c/a" }] ∧
    httpRequests (deleteLargeObject redirectEnv "c" "a" sampleState).2.trace =
      [{ Method := "DELETE", Host := "host", Target := "/v1/acct/c/a?multipart-manifest=delete" },
       { Method := "DELETE", Host := "host2",
         Target := "/v1/acct/c/a?multipart-manifest=delete" }] := by
  decide

theorem deleteIsLarge_eq (args : List String) :
    deleteIsLarge args = some (decide (args.length = 6 ∧ args[5]? = some "-l")) := by
  unfold deleteIsLarge
  by_cases h6 : args.length = 6
  · have h5 : args[5]? = some args[5] := List.getElem?_eq_getElem (by omega)
    simp [h6, h5]
  · simp [h6]

/-- What `deleteObject` does to the trace: one `ObjectDelete` on the connection, no call
of `client.Do` and nothing on the wire. -/
theorem deleteObject_trace (c o : String) (s : State) :
    swiftCalls (deleteObject c o s).2.trace = swiftCalls s.trace ++ [.ObjectDelete c o] ∧
    httpRequests (deleteObject c o s).2.trace = httpRequests s.trace ∧
    clientDoCalls (deleteObject c o s).2.trace = clientDoCalls s.trace := by
  unfold deleteObject swiftObjectDelete State.nextFault
  cases hf : s.faults with
  | nil =>
    cases hs : s.store c o <;>
      simp [State.log, hf, hs, swiftCalls_append, swiftCalls, httpRequests_append, httpRequests,
        clientDoCalls_append, clientDoCalls]
  | cons f rest =>
    cases f <;> cases hs : s.store c o <;>
      simp [State.log, hf, hs, swiftCalls_append, swiftCalls, httpRequests_append, httpRequests,
        clientDoCalls_append, clientDoCalls]

/-- C8: with at least five arguments `DeleteObject` runs exactly one strategy on
`(args[3], args[4])`. With six arguments the last of which is `-l` it is the manifest
delete over HTTP, and no call is made on the Swift connection; otherwise it is
`deleteObject`, which makes the single `ObjectDelete` call, does not call `client.Do` and
sends no HTTP request. In both cases the success message is returned exactly when the strategy returned no error,
and an error of the strategy is returned wrapped, with the empty string. -/
theorem DeleteObject_dispatch (env : Env) (args : List String) (s : State)
    (hlen : 5 ≤ args.length) :
    (args.length = 6 ∧ args[5]? = some "-l" →
      ∃ r, DeleteObject env args s = some r ∧
        r.2 = (deleteLargeObject env args[3] args[4] (s.log (.stage "Deleting object"))).2 ∧
        (r.1 = ("\r" ++ env.ClearLine ++ env.Green "OK" ++ "\n\nDeleted object " ++ args[4]
            ++ " from container " ++ args[3] ++ "\n", none) ↔
          (deleteLargeObject env args[3] args[4] (s.log (.stage "Deleting object"))).1 = none) ∧
        (∀ e, (deleteLargeObject env args[3] args[4]
            (s.log (.stage "Deleting object"))).1 = some e →
          r.1 = ("", some (.deleteFailed args[4] e))) ∧
        swiftCalls r.2.trace = swiftCalls s.trace) ∧
    (¬ (args.length = 6 ∧ args[5]? = some "-l") →
      ∃ r, DeleteObject env args s = some r ∧
        r.2 = (deleteObject args[3] args[4] (s.log (.stage "Deleting object"))).2 ∧
        (r.1 = ("\r" ++ env.ClearLine ++ env.Green "OK" ++ "\n\nDeleted object " ++ args[4]
            ++ " from container " ++ args[3] ++ "\n", none) ↔
          (deleteObject args[3] args[4] (s.log (.stage "Deleting object"))).1 = none) ∧
        (∀ e, (deleteObject args[3] args[4] (s.log (.stage "Deleting object"))).1 = some e →
          r.1 = ("", some (.deleteFailed args[4] e))) ∧
        swiftCalls r.2.trace = swiftCalls s.trace ++ [.ObjectDelete args[3] args[4]] ∧
        httpRequests r.2.trace = httpRequests s.trace ∧
        clientDoCalls r.2.trace = clientDoCalls s.trace) := by
  have h3 : args[3]? = some args[3] := List.getElem?_eq_getElem (by omega)
  have h4 : args[4]? = some args[4] := List.getElem?_eq_getElem (by omega)
  constructor
  · intro hl
    have hsw := deleteLargeObject_swiftCalls env args[3] args[4]
      (s.log (.stage "Deleting object"))
    rcases hr : deleteLargeObject env args[3] args[4] (s.log (.stage "Deleting object"))
      with ⟨e, s1⟩
    rw [hr] at hsw
    cases e with
    | none =>
      refine ⟨_, by simp [DeleteObject, h3, h4, deleteIsLarge_eq, hl, hr]; rfl, rfl, ?_, ?_, ?_⟩
      · simp
      · simp
      · simpa [State.log, swiftCalls_append, swiftCalls] using hsw
    | some e =>
      refine ⟨_, by simp [DeleteObject, h3, h4, deleteIsLarge_eq, hl, hr]; rfl, rfl, ?_, ?_, ?_⟩
      · simp
      · simp
      · simpa [State.log, swiftCalls_append, swiftCalls] using hsw
  · intro hl
    have htr := deleteObject_trace args[3] args[4] (s.log (.stage "Deleting object"))
    rcases hr : deleteObject args[3] args[4] (s.log (.stage "Deleting object")) with ⟨e, s1⟩
    rw [hr] at htr
    cases e with
    | none =>
      refine ⟨_, by simp [DeleteObject, h3, h4, deleteIsLarge_eq, hl, hr]; rfl, rfl,
        ?_, ?_, ?_, ?_, ?_⟩
      · simp
      · simp
      · simpa [State.log, swiftCalls_append, swiftCalls] using htr.1
      · simpa [State.log, httpRequests_append, httpRequests] using htr.2.1
      · simpa [State.log, clientDoCalls_append, clientDoCalls] using htr.2.2
    | some e =>
      refine ⟨_, by simp [DeleteObject, h3, h4, deleteIsLarge_eq, hl, hr]; rfl, rfl,
        ?_, ?_, ?_, ?_, ?_⟩
      · simp
      · simp
      · simpa [State.log, swiftCalls_append, swiftCalls] using htr.1
      · simpa [State.log, httpRequests_append, httpRequests] using htr.2.1
      · simpa [State.log, clientDoCalls_append, clientDoCalls] using htr.2.2

/-- Witness of C8: with `-l` only the HTTP strategy runs, without it only the single
`ObjectDelete` call. -/
theorem DeleteObject_dispatch_witness :
    (∃ r, DeleteObject sampleEnv ["os", "delete-object", "svc", "c", "a", "-l"] sampleState
        = some r ∧ swiftCalls r.2.trace = swiftCalls sampleState.trace) ∧
    (∃ r, DeleteObject sampleEnv ["os", "delete-object", "svc", "c", "a"] sampleState
        = some r ∧
      swiftCalls r.2.trace = swiftCalls sampleState.trace ++ [.ObjectDelete "c" "a"] ∧
      httpRequests r.2.trace = httpRequests sampleState.trace ∧
      clientDoCalls r.2.trace = clientDoCalls sampleState.trace) :=
  ⟨((DeleteObject_dispatch sampleEnv ["os", "delete-object", "svc", "c", "a", "-l"]
      sampleState (by decide)).1 (by decide)).imp fun _ hr => ⟨hr.1, hr.2.2.2.2⟩,
    ((DeleteObject_dispatch sampleEnv ["os", "delete-object", "svc", "c", "a"]
      sampleState (by decide)).2 (by decide)).imp fun _ hr => ⟨hr.1, hr.2.2.2.2⟩⟩

/-- C9 (failing input): on a 404 answer `deleteLargeObject` returns from the status
check, which stands before the deferred close is registered; the effects are the creation
of the request, the call of `client.Do` and the request it sends, and the body of the
received response is never closed. -/
theorem deleteLargeObject_leaves_body_open :
    (deleteLargeObject notFoundEnv "c" "a" sampleState).1 =
      some (.statusFailed "404 Not Found") ∧
    (deleteLargeObject notFoundEnv "c" "a" sampleState).2.trace =
      [.newRequest "DELETE" "https://host/v1/acct/c/a?multipart-manifest=delete",
       .clientDo { Method := "DELETE"
                   URL := "https://host/v1/acct/c/a?multipart-manifest=delete"
                   Header := [("X-Auth-Token", ["tok"])] },
       .wire { Method := "DELETE", Host := "host",
               Target := "/v1/acct/c/a?multipart-manifest=delete" }] ∧
    Event.bodyClose ∉ (deleteLargeObject notFoundEnv "c" "a" sampleState).2.trace := by
  decide

/-- The sibling paths do release: once the source file is open, `getFileContents` ends
with its close whatever the stat and the read answer. -/
theorem getFileContents_closes (env : Env) (path : String) (s : State) (file : LocalFile)
    (hopen : env.osOpen path = .ok file) :
    (getFileContents env path s).2.trace.getLast? = some .fileClose := by
  unfold getFileContents
  simp [hopen, State.log]

/-- Once the destination file is open, `GetObject` ends with its close whether the
download succeeds or not. -/
theorem GetObject_closes (env : Env) (args : List String) (s : State)
    (hlen : 6 ≤ args.length) (hopen : env.osOpenFile args[5] = none) :
    ∃ r, GetObject env args s = some r ∧ r.2.trace.getLast? = some .fileClose := by
  have h3 : args[3]? = some args[3] := List.getElem?_eq_getElem (by omega)
  have h4 : args[4]? = some args[4] := List.getElem?_eq_getElem (by omega)
  have h5 : args[5]? = some args[5] := List.getElem?_eq_getElem (by omega)
  simp [GetObject, h3, h4, h5, hopen, State.log]

/-- On a 2xx answer the body is closed after the drain, whether the drain fails or not. -/
theorem deleteLargeObject_closes_on_2xx (env : Env) (c o : String) (s : State)
    (request : Request) (response : Response)
    (hreq : env.newRequest "DELETE" (deleteUrl env c o) = .ok request)
    (hdo : (env.clientDo (setAuthToken env request) s.store).result = .ok response)
    (hcode : ¬ (response.StatusCode < 200 ∨ response.StatusCode ≥ 300)) :
    (deleteLargeObject env c o s).2.trace.getLast? = some .bodyClose := by
  unfold deleteLargeObject
  simp only [hreq, State.log, hdo]
  simp [hcode, State.log]

set_option maxRecDepth 8192 in
/-- C10 (failing input): the body of a 200 answer breaks off with `unexpected EOF` while
it is drained; `DeleteObject` returns the empty string and an error whose message holds
the missing-operand marker of `fmt` in place of the cause. -/
theorem DeleteObject_drops_drain_cause :
    (DeleteObject brokenBodyEnv ["os", "delete-object", "svc", "c", "a", "-l"]
        sampleState).map (·.1) = some ("", some (.deleteFailed "a" .readBodyFailed)) ∧
    (Err.deleteFailed "a" .readBodyFailed).msg =
      "Failed to delete object a: Failed to read response body: %!s(MISSING)" ∧
    ¬ ("unexpected EOF".data <:+: (Err.deleteFailed "a" .readBodyFailed).msg.data) := by
  decide

/-- A failed copy leaves the store as it was; the call is on the trace. -/
theorem swiftObjectCopy_fail (s s1 : State) (a b c d e : String)
    (h : swiftObjectCopy s a b c d = (some e, s1)) :
    s1.store = s.store ∧ s1.trace = s.trace ++ [.swift (.ObjectCopy a b c d)] := by
  unfold swiftObjectCopy State.nextFault State.log at h
  cases hf : s.faults with
  | nil =>
    cases hs : s.store a b <;> simp [hf, hs] at h
    rw [← h.2]; exact ⟨rfl, rfl⟩
  | cons f rest =>
    cases f with
    | some x => simp [hf] at h; rw [← h.2]; exact ⟨rfl, rfl⟩
    | none =>
      cases hs : s.store a b <;> simp [hf, hs] at h
      rw [← h.2]; exact ⟨rfl, rfl⟩

/-- A copy that succeeds found the source and wrote its content under the new name. -/
theorem swiftObjectCopy_ok (s s1 : State) (a b c d : String)
    (h : swiftObjectCopy s a b c d = (none, s1)) :
    ∃ x, s.store a b = some x ∧ s1.store = s.store.put c d x ∧
      s1.trace = s.trace ++ [.swift (.ObjectCopy a b c d)] := by
  unfold swiftObjectCopy State.nextFault State.log at h
  cases hf : s.faults with
  | nil =>
    cases hs : s.store a b <;> simp [hf, hs] at h
    rw [← h]; exact ⟨_, rfl, rfl, rfl⟩
  | cons f rest =>
    cases f with
    | some x => simp [hf] at h
    | none =>
      cases hs : s.store a b <;> simp [hf, hs] at h
      rw [← h]; exact ⟨_, rfl, rfl, rfl⟩

/-- A failed delete leaves the store as it was. -/
theorem swiftObjectDelete_fail (s s1 : State) (c o e : String)
    (h : swiftObjectDelete s c o = (some e, s1)) :
    s1.store = s.store ∧ s1.trace = s.trace ++ [.swift (.ObjectDelete c o)] := by
  unfold swiftObjectDelete State.nextFault State.log at h
  cases hf : s.faults with
  | nil =>
    cases hs : s.store c o <;> simp [hf, hs] at h
    rw [← h.2]; exact ⟨rfl, rfl⟩
  | cons f rest =>
    cases f with
    | some x => simp [hf] at h; rw [← h.2]; exact ⟨rfl, rfl⟩
    | none =>
      cases hs : s.store c o <;> simp [hf, hs] at h
      rw [← h.2]; exact ⟨rfl, rfl⟩

/-- A delete that succeeds removed the object. -/
theorem swiftObjectDelete_ok (s s1 : State) (c o : String)
    (h : swiftObjectDelete s c o = (none, s1)) :
    s1.store = s.store.remove c o ∧ s1.trace = s.trace ++ [.swift (.ObjectDelete c o)] := by
  unfold swiftObjectDelete State.nextFault State.log at h
  cases hf : s.faults with
  | nil =>
    cases hs : s.store c o <;> simp [hf, hs] at h
    rw [← h]; exact ⟨rfl, rfl⟩
  | cons f rest =>
    cases f with
    | some x => simp [hf] at h
    | none =>
      cases hs : s.store c o <;> simp [hf, hs] at h
      rw [← h]; exact ⟨rfl, rfl⟩

/-- C6: `RenameObject` is copy-then-delete with no rollback. If the copy fails the
rename error is returned with the empty string, the copy is the only call made on the
connection and the store is unchanged; if the copy succeeds and the delete fails, the
delete error is returned with the empty string and the original name and the new name
both resolve to the content the original had before the call. -/
theorem RenameObject_no_rollback (env : Env) (args : List String) (s : State)
    (hlen : 6 ≤ args.length) :
    (∀ e s1, swiftObjectCopy (s.log (.stage "Renaming object"))
        args[3] args[4] args[3] args[5] = (some e, s1) →
      RenameObject env args s = some (("", some (.renameFailed (.cause e))), s1) ∧
      s1.store = s.store ∧
      swiftCalls s1.trace = swiftCalls s.trace ++
        [.ObjectCopy args[3] args[4] args[3] args[5]]) ∧
    (∀ e s1 s2, swiftObjectCopy (s.log (.stage "Renaming object"))
        args[3] args[4] args[3] args[5] = (none, s1) →
      swiftObjectDelete s1 args[3] args[4] = (some e, s2) →
      RenameObject env args s =
        some (("", some (.deleteFailed args[4] (.cause e))), s2) ∧
      ∃ d, s.store args[3] args[4] = some d ∧
        s2.store args[3] args[4] = some d ∧ s2.store args[3] args[5] = some d) := by
  have h3 : args[3]? = some args[3] := List.getElem?_eq_getElem (by omega)
  have h4 : args[4]? = some args[4] := List.getElem?_eq_getElem (by omega)
  have h5 : args[5]? = some args[5] := List.getElem?_eq_getElem (by omega)
  constructor
  · intro e s1 hc
    obtain ⟨hst, htr⟩ := swiftObjectCopy_fail _ _ _ _ _ _ _ hc
    refine ⟨by simp [RenameObject, h3, h4, h5, hc], hst, ?_⟩
    rw [htr]
    simp [State.log, swiftCalls_append, swiftCalls]
  · intro e s1 s2 hc hd
    obtain ⟨d, hsrc, hst, _⟩ := swiftObjectCopy_ok _ _ _ _ _ _ hc
    obtain ⟨hst2, _⟩ := swiftObjectDelete_fail _ _ _ _ _ hd
    refine ⟨by simp [RenameObject, h3, h4, h5, hc, hd], d, hsrc, ?_, ?_⟩
    · rw [hst2, hst]
      unfold Store.put
      by_cases hn : args[4] = args[5]
      · simp [hn]
      · simp [hn]; exact hsrc
    · rw [hst2, hst]
      simp [Store.put]

/-- Witness of C6: a transport that fails the first call, and one that fails the
second. -/
theorem RenameObject_no_rollback_witness :
    (RenameObject sampleEnv ["os", "rename-object", "svc", "c", "a", "b"] firstCallFails).map
        (fun r => (r.1, r.2.store "c" "a", r.2.store "c" "b", swiftCalls r.2.trace)) =
      some (("", some (.renameFailed (.cause "connection reset"))),
        some [1, 2], none, [.ObjectCopy "c" "a" "c" "b"]) ∧
    ∃ s2, RenameObject sampleEnv ["os", "rename-object", "svc", "c", "a", "b"] secondCallFails =
        some (("", some (.deleteFailed "a" (.cause "connection reset"))), s2) ∧
      ∃ d, secondCallFails.store "c" "a" = some d ∧
        s2.store "c" "a" = some d ∧ s2.store "c" "b" = some d :=
  ⟨by
    have h := (RenameObject_no_rollback sampleEnv
      ["os", "rename-object", "svc", "c", "a", "b"] firstCallFails (by decide)).1
      "connection reset" _ rfl
    rw [h.1]
    decide,
   _, (RenameObject_no_rollback sampleEnv
      ["os", "rename-object", "svc", "c", "a", "b"] secondCallFails (by decide)).2
      "connection reset" _ _ rfl rfl⟩

/-- When the new name differs from the old one, a rename that reports success has
removed the original name and left the original content under the new name. -/
theorem RenameObject_success_distinct (env : Env) (args : List String) (s : State)
    (hlen : 6 ≤ args.length) (hne : args[5] ≠ args[4]) (r : Ret × State)
    (hr : RenameObject env args s = some r) (hok : r.1.2 = none) :
    r.2.store args[3] args[4] = none ∧
    ∃ d, s.store args[3] args[4] = some d ∧ r.2.store args[3] args[5] = some d := by
  have h3 : args[3]? = some args[3] := List.getElem?_eq_getElem (by omega)
  have h4 : args[4]? = some args[4] := List.getElem?_eq_getElem (by omega)
  have h5 : args[5]? = some args[5] := List.getElem?_eq_getElem (by omega)
  rcases hc : swiftObjectCopy (s.log (.stage "Renaming object"))
    args[3] args[4] args[3] args[5] with ⟨e1, s1⟩
  cases e1 with
  | some e =>
    simp [RenameObject, h3, h4, h5, hc] at hr
    rw [← hr] at hok
    simp at hok
  | none =>
    obtain ⟨d, hsrc, hst, _⟩ := swiftObjectCopy_ok _ _ _ _ _ _ hc
    rcases hd : swiftObjectDelete s1 args[3] args[4] with ⟨e2, s2⟩
    cases e2 with
    | some e =>
      simp [RenameObject, h3, h4, h5, hc, hd] at hr
      rw [← hr] at hok
      simp at hok
    | none =>
      obtain ⟨hst2, _⟩ := swiftObjectDelete_ok _ _ _ _ hd
      simp [RenameObject, h3, h4, h5, hc, hd] at hr
      rw [← hr]
      simp only [hst2, hst]
      refine ⟨by simp [Store.remove], d, hsrc, ?_⟩
      simp [Store.remove, Store.put, hne]

/-- C5 (failing input): renaming `a` to `a` reports success, and afterwards the name no
longer resolves although the object held two bytes before the call. -/
theorem RenameObject_same_name_loses_object :
    sampleState.store "c" "a" = some [1, 2] ∧
    (RenameObject sampleEnv ["os", "rename-object", "svc", "c", "a", "a"] sampleState).map
        (fun r => (r.1, r.2.store "c" "a", swiftCalls r.2.trace)) =
      some (("\r\x1b[2K\x1b[32mOK\x1b[0m\n\nRenamed object a to a\n", none), none,
        [.ObjectCopy "c" "a" "c" "a", .ObjectDelete "c" "a"]) := by
  decide

theorem swiftObjectCreate_trace (s : State) (c o : String) (k : Bool) (h t : String) :
    (swiftObjectCreate s c o k h t).2.trace = s.trace ++ [.swift (.ObjectCreate c o k h t)] := by
  unfold swiftObjectCreate State.nextFault State.log
  cases hf : s.faults with
  | nil => simp [hf]
  | cons f rest => cases f <;> simp [hf]

theorem swiftWrite_trace (s : State) (d : List UInt8) :
    (swiftWrite s d).2.trace = s.trace ++ [.swift (.Write d)] := by
  unfold swiftWrite State.nextFault State.log
  cases hf : s.faults with
  | nil => cases hu : s.upload <;> simp [hf, hu]
  | cons f rest => cases f <;> cases hu : s.upload <;> simp [hf, hu]

theorem swiftClose_trace (s : State) :
    (swiftClose s).2.trace = s.trace ++ [.swift .Close] := by
  unfold swiftClose State.nextFault State.log
  cases hf : s.faults with
  | nil => cases hu : s.upload <;> simp [hf, hu]
  | cons f rest => cases f <;> cases hu : s.upload <;> simp [hf, hu]

/-- C7: with at least five arguments, once the source file has been read `PutObject`
calls `ObjectCreate` with container `args[3]` and with the object name `args[6]` when
there are exactly seven arguments and `args[5]` is `-n`, the base name of `args[4]`
otherwise; it is the only create call (what follows is the write and the close), and a
success message names that object and that container. -/
theorem PutObject_object_name (env : Env) (args : List String) (s s1 : State)
    (data : List UInt8) (hlen : 5 ≤ args.length)
    (hfile : getFileContents env args[4] (s.log (.stage "Uploading object")) = (.ok data, s1)) :
    ∃ r rest, PutObject env args s = some r ∧
      r.2.trace = s1.trace ++
        .swift (.ObjectCreate args[3]
          (if args.length = 7 ∧ args[5]? = some "-n" then args.getD 6 ""
            else env.filepathBase args[4]) true (hashSource env data) "") :: rest ∧
      (∀ ev ∈ rest, ev = .swift (.Write data) ∨ ev = .swift .Close) ∧
      (r.1.2 = none →
        r.1.1 = "\r" ++ env.ClearLine ++ env.Green "OK" ++ "\n\nUploaded object " ++
          (if args.length = 7 ∧ args[5]? = some "-n" then args.getD 6 ""
            else env.filepathBase args[4]) ++ " to container " ++ args[3] ++ "\n") := by
  have h3 : args[3]? = some args[3] := List.getElem?_eq_getElem (by omega)
  have h4 : args[4]? = some args[4] := List.getElem?_eq_getElem (by omega)
  generalize hname : (if args.length = 7 ∧ args[5]? = some "-n" then args.getD 6 ""
    else env.filepathBase args[4]) = name
  have hn : putObjectName env args args[4] = some name := by
    rw [putObjectName_eq, hname]
  have t1 := swiftObjectCreate_trace s1 args[3] name true (hashSource env data) ""
  rcases hc : swiftObjectCreate s1 args[3] name true (hashSource env data) "" with ⟨e1, s2⟩
  rw [hc] at t1
  cases e1 with
  | some e =>
    exact ⟨_, [], by simp [PutObject, h3, h4, hn, hfile, hc]; rfl, by simpa using t1,
      by simp, by simp⟩
  | none =>
    have t2 := swiftWrite_trace s2 data
    rcases hw : swiftWrite s2 data with ⟨e2, s3⟩
    rw [hw] at t2
    cases e2 with
    | some e =>
      refine ⟨_, [.swift (.Write data)], by simp [PutObject, h3, h4, hn, hfile, hc, hw]; rfl,
        ?_, by simp, by simp⟩
      simp only [] at t1 t2 ⊢
      rw [t2, t1]; simp
    | none =>
      have t3 := swiftClose_trace s3
      rcases hcl : swiftClose s3 with ⟨e3, s4⟩
      rw [hcl] at t3
      cases e3 with
      | some e =>
        refine ⟨_, [.swift (.Write data), .swift .Close],
          by simp [PutObject, h3, h4, hn, hfile, hc, hw, hcl]; rfl, ?_, by simp, by simp⟩
        simp only [] at t1 t2 t3 ⊢
        rw [t3, t2, t1]; simp
      | none =>
        refine ⟨_, [.swift (.Write data), .swift .Close],
          by simp [PutObject, h3, h4, hn, hfile, hc, hw, hcl]; rfl, ?_, by simp, by simp⟩
        simp only [] at t1 t2 t3 ⊢
        rw [t3, t2, t1]; simp

/-- Witness of C7: a plain upload is named after the file, an upload with `-n` after the
given name. -/
theorem PutObject_object_name_witness :
    (∃ r rest, PutObject sampleEnv ["os", "put-object", "svc", "c", "/tmp/f.txt"] sampleState
        = some r ∧
      r.2.trace = [.stage "Uploading object", .fileOpen "/tmp/f.txt", .fileStat, .fileRead 3,
          .fileClose] ++
        .swift (.ObjectCreate "c" "f.txt" true (hashSource sampleEnv [7, 8, 9]) "") :: rest) ∧
    (∃ r rest, PutObject sampleEnv ["os", "put-object", "svc", "c", "/tmp/f.txt", "-n", "g"]
        sampleState = some r ∧
      r.2.trace = [.stage "Uploading object", .fileOpen "/tmp/f.txt", .fileStat, .fileRead 3,
          .fileClose] ++
        .swift (.ObjectCreate "c" "g" true (hashSource sampleEnv [7, 8, 9]) "") :: rest) :=
  ⟨(PutObject_object_name sampleEnv ["os", "put-object", "svc", "c", "/tmp/f.txt"]
      sampleState _ [7, 8, 9] (by decide) rfl).imp fun _ h => h.imp fun _ h => ⟨h.1, h.2.1⟩,
    (PutObject_object_name sampleEnv ["os", "put-object", "svc", "c", "/tmp/f.txt", "-n", "g"]
      sampleState _ [7, 8, 9] (by decide) rfl).imp fun _ h => h.imp fun _ h => ⟨h.1, h.2.1⟩⟩

/-- Every other format of the package does carry its cause: the message of an error
that wraps an outside cause ends in the text of that cause. -/
theorem Err.msg_ends_in_cause (e : Err) (t : String) (h : e.rootCause = some t) :
    t.data <:+ e.msg.data := by
  induction e with
  | cause x =>
    simp only [Err.rootCause, Option.some.injEq] at h
    subst h
    exact List.suffix_refl _
  | statusFailed st => simp [Err.rootCause] at h
  | readBodyFailed => simp [Err.rootCause] at h
  | tooLarge n => simp [Err.rootCause] at h
  | getObjectFailed o e ih =>
    exact (ih h).trans (by simp only [Err.msg, String.data_append]; exact List.suffix_append _ _)
  | fileContentsFailed p e ih =>
    exact (ih h).trans (by simp only [Err.msg, String.data_append]; exact List.suffix_append _ _)
  | deleteFailed o e ih =>
    exact (ih h).trans (by simp only [Err.msg, String.data_append]; exact List.suffix_append _ _)
  | createFailed e ih | writeFailed e ih | closeWriterFailed e ih | copyFailed e ih
  | openCreateFailed e ih | renameFailed e ih | createRequestFailed e ih
  | makeRequestFailed e ih | openSourceFailed e ih | statFailed e ih
  | readSourceFailed e ih =>
    exact (ih h).trans (by simp only [Err.msg, String.data_append]; exact List.suffix_append _ _)

end ObjectStorage
